import Mathlib

/-!
Verification development for the session + streaming relay engine of the
ai-chat repository.  The TypeScript sources are shallowly embedded: time is
milliseconds since the epoch (`Nat`), `Promise`-based methods become pure
state-passing functions taking the current instant `now` explicitly, and
fallible calls return `Except`.
-/

namespace AiChat

/-- Message role, mirroring `MessageRole` in `types/chat.ts`. -/
inductive Role where
  | user
  | assistant
deriving DecidableEq, Repr

/-- Model of `ChatImage` from `types/chat.ts`: base64 data, MIME type, byte size. -/
structure ChatImage where
  data : String
  mimeType : String
  size : Nat
deriving DecidableEq, Repr

/-- Model of `ChatMessage` from `types/chat.ts` (the variant with optional images). -/
structure ChatMessage where
  role : Role
  content : String
  images : Option (List ChatImage) := none
deriving DecidableEq, Repr

/-- Model of `ImageData` from `lib/storage.ts`: a stored image with id and timestamp. -/
structure ImageData where
  id : String
  data : String
  mimeType : String
  size : Nat
  createdAt : Nat
deriving DecidableEq, Repr

/-- Model of `MessageData` from `lib/storage.ts`: a stored message with id and timestamp. -/
structure MessageData where
  id : String
  role : Role
  content : String
  images : Option (List ImageData) := none
  createdAt : Nat
deriving DecidableEq, Repr

/-- Model of `SessionData` from `lib/storage.ts`. -/
structure SessionData where
  id : String
  sessionId : String
  messages : List MessageData
  createdAt : Nat
  expiresAt : Nat
deriving DecidableEq, Repr

/-!
## In-memory (volatile) backend

`InMemoryStorage` keeps `private sessions: Map<string, SessionData>` and a
`messageIdCounter`.  The `Map` is embedded as an association list keyed by
session id; every operation additionally receives the wall-clock instant
`now` standing for the `new Date()` calls in the source.
-/

/-- State of `InMemoryStorage`: the session map and the message-id counter. -/
structure InMemoryStorage where
  sessions : List (String × SessionData)
  messageIdCounter : Nat
deriving DecidableEq, Repr

/-- The empty store a fresh `InMemoryStorage` starts with. -/
def InMemoryStorage.empty : InMemoryStorage := ⟨[], 0⟩

/-- Embedding of `Map.get` on the embedded session map. -/
def mapGet (m : List (String × SessionData)) (k : String) : Option SessionData :=
  (m.find? (fun p => p.1 = k)).map Prod.snd

/-- Embedding of `Map.set` on the embedded session map (replaces an existing binding). -/
def mapSet (m : List (String × SessionData)) (k : String) (v : SessionData) :
    List (String × SessionData) :=
  if (m.find? (fun p => p.1 = k)).isSome then
    m.map (fun p => if p.1 = k then (k, v) else p)
  else
    m ++ [(k, v)]

/-- Embedding of `Map.delete` on the embedded session map. -/
def mapDelete (m : List (String × SessionData)) (k : String) :
    List (String × SessionData) :=
  m.filter (fun p => ¬ p.1 = k)

/-- Embedding of `InMemoryStorage.createSession`: builds a fresh session with no messages
and stores it under its id. -/
def InMemoryStorage.createSession (st : InMemoryStorage) (now : Nat)
    (sessionId : String) (expiresAt : Nat) : SessionData × InMemoryStorage :=
  let session : SessionData :=
    { id := sessionId, sessionId := sessionId, messages := [],
      createdAt := now, expiresAt := expiresAt }
  (session, { st with sessions := mapSet st.sessions sessionId session })

/-- Embedding of `InMemoryStorage.getSession`: looks the session up; when
`new Date() > session.expiresAt` it deletes the entry and returns `null`
(the self-healing read). -/
def InMemoryStorage.getSession (st : InMemoryStorage) (now : Nat)
    (sessionId : String) : Option SessionData × InMemoryStorage :=
  match mapGet st.sessions sessionId with
  | none => (none, st)
  | some session =>
      if now > session.expiresAt then
        (none, { st with sessions := mapDelete st.sessions sessionId })
      else
        (some session, st)

/-- Embedding of `InMemoryStorage.deleteSession`: `Map.delete`, which is a no-op on a
missing key and never fails. -/
def InMemoryStorage.deleteSession (st : InMemoryStorage)
    (sessionId : String) : InMemoryStorage :=
  { st with sessions := mapDelete st.sessions sessionId }

/-- The hard-coded auto-creation expiry used inside `addMessage`:
`expiresAt.setHours(expiresAt.getHours() + 1)` adds exactly one hour
(3 600 000 ms) to the current instant. -/
def oneHourMs : Nat := 3600000

/-- Mapping of request images to stored `ImageData` records inside
`addMessage` (ids carry the message counter and the image index). -/
def storedImages (counter : Nat) (now : Nat) (imgs : List ChatImage) :
    List ImageData :=
  imgs.enum.map (fun p =>
    { id := "img_" ++ toString counter ++ "_" ++ toString p.1,
      data := p.2.data, mimeType := p.2.mimeType,
      size := p.2.size, createdAt := now })

/-- Construction of the stored `MessageData` record inside `addMessage`. -/
def mkStoredMessage (counter : Nat) (now : Nat) (message : ChatMessage) :
    MessageData :=
  { id := "msg_" ++ toString counter,
    role := message.role,
    content := message.content,
    images := message.images.map (storedImages counter now),
    createdAt := now }

/-- Embedding of `InMemoryStorage.addMessage`: reads the session through
`getSession` (so an expired session is evicted first), auto-creates it
with a 1-hour expiry when absent, then builds the stored message and
pushes it onto the session's message array. -/
def InMemoryStorage.addMessage (st : InMemoryStorage) (now : Nat)
    (sessionId : String) (message : ChatMessage) :
    MessageData × InMemoryStorage :=
  let (found, st1) := st.getSession now sessionId
  let (session, st2) :=
    match found with
    | some s => (s, st1)
    | none => st1.createSession now sessionId (now + oneHourMs)
  let counter := st2.messageIdCounter + 1
  let messageData := mkStoredMessage counter now message
  let session' := { session with messages := session.messages ++ [messageData] }
  (messageData,
    { sessions := mapSet st2.sessions sessionId session',
      messageIdCounter := counter })

/-- Embedding of `InMemoryStorage.getMessages`: `getSession` then `session?.messages || []`. -/
def InMemoryStorage.getMessages (st : InMemoryStorage) (now : Nat)
    (sessionId : String) : List MessageData × InMemoryStorage :=
  let (found, st1) := st.getSession now sessionId
  match found with
  | some s => (s.messages, st1)
  | none => ([], st1)

/-- Embedding of `InMemoryStorage.deleteExpiredSessions`: removes every session with
`now > expiresAt` and returns how many were removed. -/
def InMemoryStorage.deleteExpiredSessions (st : InMemoryStorage) (now : Nat) :
    Nat × InMemoryStorage :=
  let expired := st.sessions.filter (fun p => now > p.2.expiresAt)
  (expired.length,
    { st with sessions := st.sessions.filter (fun p => ¬ now > p.2.expiresAt) })

/-!
## Session utilities (`lib/utils.ts`)
-/

/-- Embedding of base-10 `parseInt` on a non-negative numeral: the value
of the leading run of decimal digits, or `none` (JavaScript `NaN`) when
the string starts with no digit. -/
def parseDecimal (s : String) : Option Nat :=
  let ds := s.toList.takeWhile Char.isDigit
  if ds.isEmpty then none
  else some (ds.foldl (fun n c => n * 10 + (c.toNat - 48)) 0)

/-- Embedding of the `parseInt(process.env.SESSION_EXPIRY || "3600", 10)`
computation with the `isNaN` fallback: the environment variable is an
optional string; a missing or non-numeric value yields the default 3600. -/
def sessionExpirySeconds (env : Option String) : Nat :=
  match env with
  | none => 3600
  | some s => (parseDecimal s).getD 3600

/-- Embedding of `getSessionExpiresAt` from `lib/utils.ts`:
`new Date(Date.now() + expirySeconds * 1000)`. -/
def getSessionExpiresAt (env : Option String) (now : Nat) : Nat :=
  now + sessionExpirySeconds env * 1000

/-- Embedding of `isSessionExpired` from `lib/utils.ts`: `new Date() > expiresAt`. -/
def isSessionExpired (now : Nat) (expiresAt : Nat) : Bool :=
  now > expiresAt

/-!
## MongoDB (durable) backend (`MongoDBStorage` in `lib/storage.ts`)

The Prisma-managed database is embedded as two record collections: session
records and message records holding a foreign key to their session.  Each
`MongoDBStorage` method receives (and, where it never consults the clock,
ignores) the call instant `now`.
-/

/-- Stored image record of the durable backend. -/
structure PrismaImageRecord where
  id : String
  data : String
  mimeType : String
  size : Nat
  createdAt : Nat
deriving DecidableEq, Repr

/-- Message record of the durable backend, with a foreign key to its session. -/
structure PrismaMessageRecord where
  id : String
  sessionFk : String
  role : Role
  content : String
  images : List PrismaImageRecord
  createdAt : Nat
deriving DecidableEq, Repr

/-- Session record of the durable backend. -/
structure PrismaSessionRecord where
  id : String
  sessionId : String
  createdAt : Nat
  expiresAt : Nat
deriving DecidableEq, Repr

/-- State of the Prisma-managed database backing `MongoDBStorage`. -/
structure PrismaDB where
  sessions : List PrismaSessionRecord
  messages : List PrismaMessageRecord
deriving DecidableEq, Repr

/-- Errors surfaced by the Prisma client that `MongoDBStorage` does not
catch.  `recordNotFound` is Prisma error P2025 ("record to delete does not
exist"). -/
inductive PrismaError where
  | recordNotFound
deriving DecidableEq, Repr

/-- Mapping of a message record to `MessageData`, as in `mapSession` /
`addMessage` of `MongoDBStorage`. -/
def mapPrismaMessage (m : PrismaMessageRecord) : MessageData :=
  { id := m.id, role := m.role, content := m.content,
    images := some (m.images.map (fun img =>
      { id := img.id, data := img.data, mimeType := img.mimeType,
        size := img.size, createdAt := img.createdAt })),
    createdAt := m.createdAt }

/-- Embedding of the `findUnique` include clause of
`MongoDBStorage.getSession`: the session's message records ordered by
`createdAt` ascending. -/
def prismaMessagesOf (db : PrismaDB) (sessionPk : String) : List PrismaMessageRecord :=
  (db.messages.filter (fun m => m.sessionFk = sessionPk)).mergeSort
    (fun a b => a.createdAt ≤ b.createdAt)

/-- Embedding of `MongoDBStorage.getSession`: a plain `findUnique` on the
session id with its messages included.  The method never consults the
clock and applies no expiry filter, so the `now` argument is unused and
the database is left unchanged. -/
def MongoDBStorage.getSession (db : PrismaDB) (now : Nat)
    (sessionId : String) : Option SessionData × PrismaDB :=
  let _ := now
  match db.sessions.find? (fun s => s.sessionId = sessionId) with
  | none => (none, db)
  | some s =>
      (some { id := s.id, sessionId := s.sessionId,
              messages := (prismaMessagesOf db s.id).map mapPrismaMessage,
              createdAt := s.createdAt, expiresAt := s.expiresAt }, db)

/-- Embedding of `MongoDBStorage.deleteSession`: `prisma.session.delete`
with no surrounding catch.  Per documented Prisma client semantics,
`delete` rejects with error P2025 when no record matches the `where`
clause; on success the session record and (cascading, per the schema
relation) its message records are removed. -/
def MongoDBStorage.deleteSession (db : PrismaDB) (sessionId : String) :
    Except PrismaError PrismaDB :=
  match db.sessions.find? (fun s => s.sessionId = sessionId) with
  | none => .error .recordNotFound
  | some s =>
      .ok { sessions := db.sessions.filter (fun t => ¬ t.sessionId = sessionId),
            messages := db.messages.filter (fun m => ¬ m.sessionFk = s.id) }

/-!
## Completion client (`lib/claude.ts`)

Constants `MAX_RETRIES = 3` and `RETRY_DELAY_MS = 1000`.  The upstream API
is embedded as an oracle indexed by attempt number: each attempt of the
streaming call delivers a finite event sequence and optionally throws
afterwards; each attempt of the single-shot call either throws or resolves
to a response whose `content` is a list of tagged blocks.  Errors are
identified with their message strings, which the source preserves
(`error instanceof Error ? error : new Error(String(error))`).
-/

/-- Constant `MAX_RETRIES` of `lib/claude.ts`. -/
def MAX_RETRIES : Nat := 3

/-- Constant `RETRY_DELAY_MS` of `lib/claude.ts`. -/
def RETRY_DELAY_MS : Nat := 1000

/-- Delta payload of a `content_block_delta` upstream event. -/
inductive Delta where
  | textDelta (text : String)
  | otherDelta (kind : String)
deriving DecidableEq, Repr

/-- One event delivered by the upstream message stream. -/
inductive UpstreamEvent where
  | contentBlockDelta (delta : Delta)
  | otherEvent (kind : String)
deriving DecidableEq, Repr

/-- Embedding of the loop body of `streamChatCompletion`: yield
`event.delta.text` exactly when `event.type === "content_block_delta"`
and `event.delta.type === "text_delta"`. -/
def yieldsOf : List UpstreamEvent → List String
  | [] => []
  | .contentBlockDelta (.textDelta t) :: rest => t :: yieldsOf rest
  | .contentBlockDelta (.otherDelta _) :: rest => yieldsOf rest
  | .otherEvent _ :: rest => yieldsOf rest

/-- Specification-side characterization: the texts of the text-delta
events, in arrival order. -/
def textDeltaTexts (events : List UpstreamEvent) : List String :=
  events.filterMap (fun e =>
    match e with
    | .contentBlockDelta (.textDelta t) => some t
    | _ => none)

/-- One attempt of the upstream streaming call: the events delivered, then
optionally an error thrown (after the listed events were already yielded). -/
structure StreamAttempt where
  events : List UpstreamEvent
  failure : Option String
deriving DecidableEq, Repr

/-- Observable result of running `streamChatCompletion`: attempts made,
back-off delays slept between attempts, fragments yielded to the caller
(in order, including those of attempts that later failed), and the final
outcome. -/
structure StreamRun where
  attemptsMade : Nat
  sleeps : List Nat
  yielded : List String
  outcome : Except String Unit
deriving Repr

/-- Embedding of the retry loop of `streamChatCompletion`
(`for attempt = 1..MAX_RETRIES`): a successful attempt yields its
fragments and returns; a failing attempt yields the fragments delivered
before the throw, sleeps `RETRY_DELAY_MS * attempt` when another attempt
remains, and retries; after the last failure the last error is thrown
(`lastError || new Error("Unknown error occurred")`). -/
def streamGo (att : Nat → StreamAttempt) (lastErr : Option String)
    (attemptNo : Nat) : Nat → StreamRun
  | 0 =>
      { attemptsMade := 0, sleeps := [], yielded := [],
        outcome := .error (lastErr.getD "Unknown error occurred") }
  | fuel + 1 =>
      let a := att attemptNo
      match a.failure with
      | none =>
          { attemptsMade := 1, sleeps := [], yielded := yieldsOf a.events,
            outcome := .ok () }
      | some e =>
          let pause := if attemptNo < MAX_RETRIES then [RETRY_DELAY_MS * attemptNo] else []
          let rest := streamGo att (some e) (attemptNo + 1) fuel
          { attemptsMade := rest.attemptsMade + 1,
            sleeps := pause ++ rest.sleeps,
            yielded := yieldsOf a.events ++ rest.yielded,
            outcome := rest.outcome }

/-- Embedding of `streamChatCompletion`: `getClient()` throws a
configuration error before any attempt when the API key is absent;
otherwise the retry loop runs. -/
def streamChatCompletionRun (apiKey : Option String)
    (att : Nat → StreamAttempt) : StreamRun :=
  match apiKey with
  | none =>
      { attemptsMade := 0, sleeps := [], yielded := [],
        outcome := .error "ANTHROPIC_API_KEY environment variable is not set" }
  | some _ => streamGo att none 1 MAX_RETRIES

/-- Content block of a single-shot upstream response. -/
inductive ContentBlock where
  | text (t : String)
  | other (kind : String)
deriving DecidableEq, Repr

/-- Single-shot upstream response: its `content` array. -/
structure ApiResponse where
  content : List ContentBlock
deriving DecidableEq, Repr

/-- Embedding of `response.content.find((c) => c.type === "text")`. -/
def firstText : List ContentBlock → Option String
  | [] => none
  | .text t :: _ => some t
  | .other _ :: rest => firstText rest

/-- Embedding of the try-block body of one `createChatCompletion` attempt:
either the call itself throws, or the response resolves and the first
text block is extracted — throwing `"No text content in response"`
(inside the try, hence caught by the retry loop) when there is none. -/
def createStep (r : Except String ApiResponse) : Except String String :=
  match r with
  | .error e => .error e
  | .ok resp =>
      match firstText resp.content with
      | some t => .ok t
      | none => .error "No text content in response"

/-- Observable result of running `createChatCompletion`. -/
structure CreateRun where
  attemptsMade : Nat
  sleeps : List Nat
  outcome : Except String String
deriving Repr

/-- Embedding of the retry loop of `createChatCompletion`, with the same
shape as `streamGo`. -/
def createGo (att : Nat → Except String ApiResponse) (lastErr : Option String)
    (attemptNo : Nat) : Nat → CreateRun
  | 0 =>
      { attemptsMade := 0, sleeps := [],
        outcome := .error (lastErr.getD "Unknown error occurred") }
  | fuel + 1 =>
      match createStep (att attemptNo) with
      | .ok t => { attemptsMade := 1, sleeps := [], outcome := .ok t }
      | .error e =>
          let pause := if attemptNo < MAX_RETRIES then [RETRY_DELAY_MS * attemptNo] else []
          let rest := createGo att (some e) (attemptNo + 1) fuel
          { attemptsMade := rest.attemptsMade + 1,
            sleeps := pause ++ rest.sleeps,
            outcome := rest.outcome }

/-- Embedding of `createChatCompletion`: configuration check first, then
the retry loop. -/
def createChatCompletionRun (apiKey : Option String)
    (att : Nat → Except String ApiResponse) : CreateRun :=
  match apiKey with
  | none =>
      { attemptsMade := 0, sleeps := [],
        outcome := .error "ANTHROPIC_API_KEY environment variable is not set" }
  | some _ => createGo att none 1 MAX_RETRIES

/-!
## Image validation (`lib/image.ts`)
-/

/-- Constant `SUPPORTED_IMAGE_TYPES`. -/
def SUPPORTED_IMAGE_TYPES : List String :=
  ["image/png", "image/jpeg", "image/webp", "image/gif"]

/-- Constant `MAX_IMAGE_SIZE` (5 MB). -/
def MAX_IMAGE_SIZE : Nat := 5 * 1024 * 1024

/-- Constant `MAX_IMAGES_PER_MESSAGE`. -/
def MAX_IMAGES_PER_MESSAGE : Nat := 4

/-- Embedding of `isValidImageType`. -/
def isValidImageType (mimeType : String) : Bool :=
  SUPPORTED_IMAGE_TYPES.contains mimeType

/-- Embedding of `isValidImageSize`: `size > 0 && size <= MAX_IMAGE_SIZE`. -/
def isValidImageSize (size : Nat) : Bool :=
  size > 0 && size ≤ MAX_IMAGE_SIZE

/-- Embedding of `isValidImageCount`: `count > 0 && count <= MAX_IMAGES_PER_MESSAGE`. -/
def isValidImageCount (count : Nat) : Bool :=
  count > 0 && count ≤ MAX_IMAGES_PER_MESSAGE

/-- Predicate for one character of the base64 alphabet used by the regex
of `isValidBase64Image`. -/
def isBase64Char (c : Char) : Bool :=
  (c.isUpper || c.isLower || c.isDigit) || c = '+' || c = '/'

/-- Embedding of `isValidBase64Image`, the regex test for
one-or-more base64 characters followed by at most two padding signs. -/
def isValidBase64Image (data : String) : Bool :=
  let cs := data.toList
  let body := cs.takeWhile isBase64Char
  let rest := cs.drop body.length
  decide (1 ≤ body.length) && decide (rest.length ≤ 2) && rest.all (fun c => c = '=')

/-- Validation error kinds of `lib/image.ts`. -/
inductive ImageValidationError where
  | invalidType
  | fileTooLarge
  | tooManyImages
  | invalidData
deriving DecidableEq, Repr

/-- Result record of `validateImage` / `validateImages`. -/
structure ImageValidationResult where
  valid : Bool
  error : Option ImageValidationError := none
  message : Option String := none
deriving DecidableEq, Repr

/-- Embedding of `validateImage`: MIME type, then size, then base64 format. -/
def validateImage (data : String) (mimeType : String) (size : Nat) :
    ImageValidationResult :=
  if ¬ isValidImageType mimeType then
    { valid := false, error := some .invalidType,
      message := some ("Unsupported image type: " ++ mimeType ++
        ". Supported types: " ++ String.intercalate ", " SUPPORTED_IMAGE_TYPES) }
  else if ¬ isValidImageSize size then
    { valid := false, error := some .fileTooLarge,
      message := some ("Image size " ++ toString size ++
        " bytes exceeds maximum of " ++ toString MAX_IMAGE_SIZE ++ " bytes (5MB)") }
  else if ¬ isValidBase64Image data then
    { valid := false, error := some .invalidData,
      message := some "Invalid Base64 image data format" }
  else
    { valid := true }

/-- Helper for the indexed element loop of `validateImages`: validates the
images one by one, prefixing the failure message with the 1-based index. -/
def validateImagesLoop (i : Nat) : List ChatImage → ImageValidationResult
  | [] => { valid := true }
  | img :: rest =>
      let r := validateImage img.data img.mimeType img.size
      if r.valid then validateImagesLoop (i + 1) rest
      else
        { r with message := some ("Image " ++ toString (i + 1) ++ ": " ++
            (r.message.getD "")) }

/-- Embedding of `validateImages`: count check first, then the per-image loop. -/
def validateImages (images : List ChatImage) : ImageValidationResult :=
  if ¬ isValidImageCount images.length then
    { valid := false, error := some .tooManyImages,
      message := some ("Too many images: " ++ toString images.length ++
        ". Maximum allowed: " ++ toString MAX_IMAGES_PER_MESSAGE) }
  else
    validateImagesLoop 0 images

/-!
## Streaming relay (`POST /api/chat`)

The request body is embedded as a record of optional fields: `none` models
a field that is absent or carries a non-string (respectively
non-array) value, which the `typeof` / `Array.isArray` checks of
`validateRequest` treat alike; `images = some l` models a structurally
well-formed image array.  The upstream streaming call is abstracted by its
observable run: the fragments yielded to the handler in order, then either
normal completion or a thrown error.
-/

/-- Characters removed by JavaScript `String.prototype.trim` (the ASCII
whitespace subset; the requests of interest contain no exotic Unicode
whitespace). -/
def isJsSpace (c : Char) : Bool :=
  c = ' ' || c = '\t' || c = '\n' || c = '\r' || c = '\x0b' || c = '\x0c'

/-- Embedding of `message.trim()`: strip leading and trailing whitespace. -/
def jsTrim (s : String) : String :=
  String.mk (((s.data.dropWhile isJsSpace).reverse.dropWhile isJsSpace).reverse)

/-- Inbound JSON body of `POST /api/chat`. -/
structure RequestBody where
  sessionId : Option String
  message : Option String
  images : Option (List ChatImage)
deriving DecidableEq, Repr

/-- Embedding of `validateRequest` (the variant with image support):
`sessionId` and `message` must be strings, `message.trim()` non-empty;
each element of a present `images` array must be structurally well-formed,
which holds of every embedded `ChatImage`. -/
def validateRequest (body : RequestBody) : Bool :=
  match body.sessionId, body.message with
  | some _, some m => ¬ jsTrim m = ""
  | _, _ => false

/-- Embedding of `sessionId = body.sessionId || generateSessionId()`:
JavaScript `||` falls through to the generated id exactly when the field
is falsy — for a validated body, when it is the empty string. -/
def resolvedSessionId (body : RequestBody) (generatedId : String) : String :=
  match body.sessionId with
  | some s => if s = "" then generatedId else s
  | none => generatedId

/-- Embedding of the image gate of `POST`:
`if (images && images.length > 0)` — a missing field and an empty array
both skip `validateImages` — followed by the `validationResult.valid`
check, answering the 400 message
(`validationResult.message || "Invalid images"`) when validation fails. -/
def imagesGate (images : Option (List ChatImage)) : Option String :=
  match images with
  | none => none
  | some imgs =>
      if imgs.length > 0 then
        let r := validateImages imgs
        if ¬ r.valid then some (r.message.getD "Invalid images") else none
      else none

/-- Embedding of the session-resolution steps of `POST`: `getSession`,
eviction of an expired result, and `createSession` with the configured
expiry when no live session remains.  Returns the session the handler
works with and the updated store. -/
def resolveSession (st : InMemoryStorage) (now : Nat) (sessionId : String)
    (cfg : Option String) : SessionData × InMemoryStorage :=
  let (found, st1) := st.getSession now sessionId
  let (live, st2) :=
    match found with
    | some s =>
        if isSessionExpired now s.expiresAt then (none, st1.deleteSession sessionId)
        else (some s, st1)
    | none => (none, st1)
  match live with
  | some s => (s, st2)
  | none => st2.createSession now sessionId (getSessionExpiresAt cfg now)

/-- Wire event of the outbound SSE stream (`StreamEvent` in `types/chat.ts`). -/
inductive SSEEvent where
  | content (text : String)
  | done
  | error (msg : String)
deriving DecidableEq, Repr

/-- Response of the chat endpoint: a 400 validation error, or the started
SSE stream with its `X-Session-Id` header and the events written to it. -/
inductive PostResponse where
  | validationError (message : String)
  | streamResponse (sessionIdHeader : String) (events : List SSEEvent)
deriving DecidableEq, Repr

/-- Response plus the storage state the request leaves behind. -/
structure PostResult where
  resp : PostResponse
  storage : InMemoryStorage
deriving DecidableEq, Repr

/-- Embedding of the `POST /api/chat` handler (image-enabled variant) over
the volatile backend: validation, image gate, session resolution, user
append, then the stream pump.  The upstream run is the pair of the
fragments yielded (each forwarded as a `content` event and accumulated)
and an optional thrown error; on normal completion the accumulated text is
persisted as the assistant message and `done` is emitted, on a throw a
single `error` event is emitted instead and nothing further is persisted. -/
def POST (cfg : Option String) (body : RequestBody) (st : InMemoryStorage)
    (now : Nat) (generatedId : String) (run : List String × Option String) :
    PostResult :=
  if ¬ validateRequest body then
    ⟨.validationError "Invalid request body", st⟩
  else
    let sessionId := resolvedSessionId body generatedId
    let userMessage := jsTrim (body.message.getD "")
    match imagesGate body.images with
    | some m => ⟨.validationError m, st⟩
    | none =>
        let st3 := (resolveSession st now sessionId cfg).2
        let st4 := (st3.addMessage now sessionId
          { role := .user, content := userMessage, images := body.images }).2
        let contentEvents := run.1.map SSEEvent.content
        match run.2 with
        | none =>
            let assistant := String.join run.1
            let st5 := (st4.addMessage now sessionId
              { role := .assistant, content := assistant, images := none }).2
            ⟨.streamResponse sessionId (contentEvents ++ [SSEEvent.done]), st5⟩
        | some e =>
            ⟨.streamResponse sessionId (contentEvents ++ [SSEEvent.error e]), st4⟩

/-!
## Auxiliary definitions for the statements
-/

/-- Liveness of a session in the volatile store at instant `now`: absent,
or present with an expiry not yet passed. -/
def sessionLive (st : InMemoryStorage) (now : Nat) (sid : String) : Bool :=
  match mapGet st.sessions sid with
  | none => true
  | some s => decide (now ≤ s.expiresAt)

/-- Content-level view of a request image. -/
def imageProj (i : ChatImage) : String × String × Nat :=
  (i.data, i.mimeType, i.size)

/-- Content-level view of a stored image. -/
def storedImageProj (i : ImageData) : String × String × Nat :=
  (i.data, i.mimeType, i.size)

/-- Content-level view of a request message: role, text, image payloads. -/
def chatProj (m : ChatMessage) : Role × String × Option (List (String × String × Nat)) :=
  (m.role, m.content, m.images.map (List.map imageProj))

/-- Content-level view of a stored message, forgetting the assigned id and
timestamp. -/
def storedProj (m : MessageData) : Role × String × Option (List (String × String × Nat)) :=
  (m.role, m.content, m.images.map (List.map storedImageProj))

/-- Sequential appends: fold `addMessage` over a list of messages. -/
def addMessages (st : InMemoryStorage) (now : Nat) (sid : String) :
    List ChatMessage → InMemoryStorage
  | [] => st
  | m :: rest => addMessages (st.addMessage now sid m).2 now sid rest

/-- Concrete durable-backend state with a single session whose expiry
instant 1000 is already in the past at call instant 2000. -/
def expiredMongoDB : PrismaDB :=
  { sessions := [{ id := "oid1", sessionId := "s1", createdAt := 0, expiresAt := 1000 }],
    messages := [] }

/-- Upstream oracle whose every attempt resolves to a well-formed response
containing no text-typed content block. -/
def noTextAttempts : Nat → Except String ApiResponse :=
  fun _ => .ok { content := [ContentBlock.other "image"] }

/-- The mixed upstream event sequence of the specification:
lifecycle-start, text-delta A, non-text delta, text-delta B, lifecycle-end. -/
def mixedEvents : List UpstreamEvent :=
  [.otherEvent "message_start",
   .contentBlockDelta (.textDelta "A"),
   .contentBlockDelta (.otherDelta "input_json_delta"),
   .contentBlockDelta (.textDelta "B"),
   .otherEvent "message_stop"]

/-!
## Helper lemmas
-/

theorem mapGet_map_overwrite {k : String} {v : SessionData}
    {m : List (String × SessionData)}
    (h : (m.find? (fun p => p.1 = k)).isSome) :
    mapGet (m.map (fun p => if p.1 = k then (k, v) else p)) k = some v := by
  induction m with
  | nil => simp at h
  | cons p t ih =>
      by_cases hp : p.1 = k
      · simp [mapGet, hp]
      · have hb : ¬ ((fun q : String × SessionData => decide (q.1 = k)) p = true) := by
          simpa using hp
        rw [List.find?_cons_of_neg (p := fun q : String × SessionData => decide (q.1 = k)) _ hb] at h
        have hih := ih h
        simp only [List.map_cons, if_neg hp]
        unfold mapGet at hih ⊢
        rw [List.find?_cons_of_neg (p := fun q : String × SessionData => decide (q.1 = k)) _ hb]
        exact hih

theorem mapGet_mapSet_self (m : List (String × SessionData)) (k : String)
    (v : SessionData) : mapGet (mapSet m k v) k = some v := by
  unfold mapSet
  by_cases h : (m.find? (fun p => p.1 = k)).isSome
  · rw [if_pos h]
    exact mapGet_map_overwrite h
  · rw [if_neg h]
    have hn : m.find? (fun p => decide (p.1 = k)) = none := by
      cases hf : m.find? (fun p => decide (p.1 = k)) with
      | none => rfl
      | some x => rw [hf] at h; simp at h
    simp [mapGet, List.find?_append, hn]

theorem mapGet_mapDelete_self (m : List (String × SessionData)) (k : String) :
    mapGet (mapDelete m k) k = none := by
  simp [mapGet, mapDelete]

theorem getSession_absent (st : InMemoryStorage) (now : Nat) (sid : String)
    (h : mapGet st.sessions sid = none) :
    st.getSession now sid = (none, st) := by
  simp [InMemoryStorage.getSession, h]

theorem getSession_live (st : InMemoryStorage) (now : Nat) (sid : String)
    (s : SessionData) (h : mapGet st.sessions sid = some s)
    (h2 : now ≤ s.expiresAt) :
    st.getSession now sid = (some s, st) := by
  simp [InMemoryStorage.getSession, h, Nat.not_lt.mpr h2]

theorem addMessage_step (st : InMemoryStorage) (now : Nat) (sid : String)
    (msg : ChatMessage) (h : sessionLive st now sid = true) :
    (st.addMessage now sid msg).1 = mkStoredMessage (st.messageIdCounter + 1) now msg
    ∧ ((st.addMessage now sid msg).2.getMessages now sid).1
        = (st.getMessages now sid).1
            ++ [mkStoredMessage (st.messageIdCounter + 1) now msg]
    ∧ sessionLive (st.addMessage now sid msg).2 now sid = true := by
  unfold sessionLive at h
  have hfresh : ¬ (now + oneHourMs < now) := by omega
  cases hm : mapGet st.sessions sid with
  | none =>
      refine ⟨?_, ?_, ?_⟩ <;>
        simp [InMemoryStorage.addMessage, InMemoryStorage.createSession,
          InMemoryStorage.getMessages, InMemoryStorage.getSession, sessionLive,
          hm, mapGet_mapSet_self, hfresh, Nat.le_add_right]
  | some s =>
      rw [hm] at h
      have h2 : now ≤ s.expiresAt := by simpa using h
      have h3 : ¬ (s.expiresAt < now) := Nat.not_lt.mpr h2
      refine ⟨?_, ?_, ?_⟩ <;>
        simp [InMemoryStorage.addMessage,
          InMemoryStorage.getMessages, InMemoryStorage.getSession, sessionLive,
          hm, mapGet_mapSet_self, h3, h2]

theorem storedProj_mkStoredMessage (c : Nat) (now : Nat) (msg : ChatMessage) :
    storedProj (mkStoredMessage c now msg) = chatProj msg := by
  have he : ∀ l : List ChatImage,
      (storedImages c now l).map storedImageProj = l.map imageProj := by
    intro l
    unfold storedImages
    rw [List.map_map]
    rw [show (storedImageProj ∘ fun p : Nat × ChatImage =>
      ({ id := "img_" ++ toString c ++ "_" ++ toString p.1,
         data := p.2.data, mimeType := p.2.mimeType,
         size := p.2.size, createdAt := now } : ImageData))
      = imageProj ∘ Prod.snd from rfl]
    rw [← List.map_map, List.enum_map_snd]
  unfold storedProj mkStoredMessage chatProj
  cases msg.images with
  | none => rfl
  | some l => simp [he l]

/-!
## Claim theorems
-/

/-- C2: for every sequence of messages appended to a live session via
`addMessage`, a subsequent `getMessages` returns exactly those messages
(at the level of role, text and image payloads), appended in exactly that
order after the pre-existing history — no reordering, no gaps. -/
theorem getMessages_returns_appends_in_order (st : InMemoryStorage)
    (now : Nat) (sid : String) (msgs : List ChatMessage)
    (h : sessionLive st now sid = true) :
    (((addMessages st now sid msgs).getMessages now sid).1).map storedProj
      = ((st.getMessages now sid).1).map storedProj ++ msgs.map chatProj := by
  induction msgs generalizing st with
  | nil => simp [addMessages]
  | cons m rest ih =>
      obtain ⟨h1, h2, h3⟩ := addMessage_step st now sid m h
      have hr := ih (st.addMessage now sid m).2 h3
      rw [addMessages, hr, h2]
      simp [storedProj_mkStoredMessage]

/-- Witness for C2: two appended messages read back in append order. -/
theorem getMessages_returns_appends_in_order_witness :
    (((addMessages InMemoryStorage.empty 0 "s"
        [⟨Role.user, "a", none⟩, ⟨Role.assistant, "b", none⟩]).getMessages
          0 "s").1).map storedProj
      = [(Role.user, "a", none), (Role.assistant, "b", none)] := by
  have h := getMessages_returns_appends_in_order InMemoryStorage.empty 0 "s"
    [⟨Role.user, "a", none⟩, ⟨Role.assistant, "b", none⟩] (by decide)
  simpa [chatProj, imageProj, InMemoryStorage.getMessages,
    InMemoryStorage.getSession, InMemoryStorage.empty, mapGet] using h

/-- C1 counterexample: the durable backend's `getSession` returns a
session whose expiry instant (1000) is already past at the call instant
(2000), and leaves it stored — it is neither treated as absent nor
removed. -/
theorem mongo_getSession_returns_expired_session :
    (1000 : Nat) < 2000
    ∧ (MongoDBStorage.getSession expiredMongoDB 2000 "s1").1
        = some { id := "oid1", sessionId := "s1", messages := [],
                 createdAt := 0, expiresAt := 1000 }
    ∧ (MongoDBStorage.getSession expiredMongoDB 2000 "s1").2 = expiredMongoDB := by
  refine ⟨by norm_num, ?_, rfl⟩
  simp [MongoDBStorage.getSession, expiredMongoDB, prismaMessagesOf]

/-- C1 (amended): for the volatile backend, `getSession` on a stored
session whose expiry instant is in the past returns absent and removes the
session from the store at read time. -/
theorem inmemory_getSession_expired_absent_and_removed (st : InMemoryStorage)
    (now : Nat) (sid : String) (s : SessionData)
    (h1 : mapGet st.sessions sid = some s) (h2 : s.expiresAt < now) :
    (st.getSession now sid).1 = none
    ∧ mapGet ((st.getSession now sid).2).sessions sid = none := by
  constructor <;> simp [InMemoryStorage.getSession, h1, h2, mapGet_mapDelete_self]

/-- Witness for the amended C1: a session expiring at 10 read at 11. -/
theorem inmemory_getSession_expired_absent_and_removed_witness :
    ((InMemoryStorage.mk [("s", ⟨"s", "s", [], 0, 10⟩)] 0).getSession 11 "s").1 = none
    ∧ mapGet (((InMemoryStorage.mk [("s", ⟨"s", "s", [], 0, 10⟩)] 0).getSession
        11 "s").2).sessions "s" = none :=
  inmemory_getSession_expired_absent_and_removed _ 11 "s" ⟨"s", "s", [], 0, 10⟩
    (by decide) (by decide)

/-- C8 counterexample: the durable backend's `deleteSession` on an id with
no stored session rejects with Prisma error P2025 instead of succeeding. -/
theorem mongo_deleteSession_missing_session_errors :
    MongoDBStorage.deleteSession { sessions := [], messages := [] } "absent"
      = .error PrismaError.recordNotFound := rfl

/-- C8 (amended): the volatile backend's `deleteSession` never fails,
removes the session if present, and deleting twice in a row has the same
effect as deleting once. -/
theorem inmemory_deleteSession_idempotent (st : InMemoryStorage) (sid : String) :
    mapGet (st.deleteSession sid).sessions sid = none
    ∧ (st.deleteSession sid).deleteSession sid = st.deleteSession sid := by
  constructor
  · exact mapGet_mapDelete_self _ _
  · unfold InMemoryStorage.deleteSession mapDelete
    simp [List.filter_filter]

set_option maxRecDepth 4000 in
/-- C6 counterexample: with a configured expiry window of 7200 seconds,
`addMessage` still auto-creates the session with expiry `now + 3600` s
(the hard-coded 1-hour constant), not `now` plus the configured window. -/
theorem addMessage_ignores_configured_expiry :
    ((mapGet ((InMemoryStorage.empty.addMessage 0 "s"
        { role := Role.user, content := "hi", images := none }).2).sessions "s").map
          SessionData.expiresAt) = some 3600000
    ∧ getSessionExpiresAt (some "7200") 0 = 7200000
    ∧ (3600000 : Nat) ≠ 7200000 := by
  refine ⟨rfl, by decide, by decide⟩

/-- C6 (amended): `addMessage` on an unknown session id auto-creates the
session with expiry `now` plus a fixed one hour — independent of the
configured window, matching it only at the 3600-second default — then
appends the message and returns the stored form with its assigned
identifier (`msg_<counter>`) and timestamp `now`. -/
theorem addMessage_autocreates_with_one_hour_expiry (st : InMemoryStorage)
    (now : Nat) (sid : String) (msg : ChatMessage)
    (h : mapGet st.sessions sid = none) :
    ((mapGet ((st.addMessage now sid msg).2).sessions sid).map SessionData.expiresAt)
        = some (now + oneHourMs)
    ∧ ((mapGet ((st.addMessage now sid msg).2).sessions sid).map SessionData.messages)
        = some [(st.addMessage now sid msg).1]
    ∧ (st.addMessage now sid msg).1
        = mkStoredMessage (st.messageIdCounter + 1) now msg := by
  refine ⟨?_, ?_, ?_⟩ <;>
    simp [InMemoryStorage.addMessage, InMemoryStorage.getSession,
      InMemoryStorage.createSession, h, mapGet_mapSet_self]

/-- Witness for the amended C6: an auto-created session at instant 5. -/
theorem addMessage_autocreates_with_one_hour_expiry_witness :
    ((mapGet ((InMemoryStorage.empty.addMessage 5 "s"
        { role := Role.user, content := "hello", images := none }).2).sessions "s").map
          SessionData.expiresAt) = some (5 + oneHourMs)
    ∧ (InMemoryStorage.empty.addMessage 5 "s"
        { role := Role.user, content := "hello", images := none }).1
        = mkStoredMessage 1 5 { role := Role.user, content := "hello", images := none } := by
  have h := addMessage_autocreates_with_one_hour_expiry InMemoryStorage.empty 5 "s"
    { role := Role.user, content := "hello", images := none } (by decide)
  exact ⟨h.1, h.2.2⟩

theorem yieldsOf_eq_textDeltaTexts (evs : List UpstreamEvent) :
    yieldsOf evs = textDeltaTexts evs := by
  induction evs with
  | nil => rfl
  | cons e rest ih =>
      cases e with
      | contentBlockDelta d =>
          cases d <;> simp [yieldsOf, textDeltaTexts, List.filterMap_cons] <;>
            simpa [textDeltaTexts] using ih
      | otherEvent k =>
          simp [yieldsOf, textDeltaTexts, List.filterMap_cons]
          simpa [textDeltaTexts] using ih

/-- C4 counterexample: with an upstream whose every attempt resolves to a
well-formed response containing no text-typed block,
`createChatCompletion` makes 3 attempts (sleeping 1000 ms and then
2000 ms in between), not exactly one — the response-shape failure is
retried. -/
theorem createChatCompletion_retries_missing_text :
    (createChatCompletionRun (some "key") noTextAttempts).attemptsMade = 3
    ∧ ¬ (createChatCompletionRun (some "key") noTextAttempts).attemptsMade = 1
    ∧ (createChatCompletionRun (some "key") noTextAttempts).sleeps = [1000, 2000]
    ∧ (createChatCompletionRun (some "key") noTextAttempts).outcome
        = .error "No text content in response" := by
  refine ⟨rfl, by decide, rfl, rfl⟩

/-- C4 (amended): if every upstream attempt resolves to a response with no
text-typed content block, `createChatCompletion` fails with the
no-text-content condition only after exhausting all 3 attempts — the
thrown shape error is caught by the retry loop like any other error, not
surfaced after a single attempt. -/
theorem createChatCompletion_no_text_after_three_attempts
    (att : Nat → Except String ApiResponse) (key : String)
    (h : ∀ i, createStep (att i) = .error "No text content in response") :
    createChatCompletionRun (some key) att
      = { attemptsMade := 3, sleeps := [1000, 2000],
          outcome := .error "No text content in response" } := by
  simp [createChatCompletionRun, createGo, h 1, h 2, h 3,
    MAX_RETRIES, RETRY_DELAY_MS]

/-- Witness for the amended C4: the no-text oracle drives all three
attempts. -/
theorem createChatCompletion_no_text_after_three_attempts_witness :
    createChatCompletionRun (some "key2") noTextAttempts
      = { attemptsMade := 3, sleeps := [1000, 2000],
          outcome := .error "No text content in response" } :=
  createChatCompletion_no_text_after_three_attempts noTextAttempts "key2"
    (fun _ => rfl)

/-- C5: when every upstream attempt fails, `createChatCompletion` and
`streamChatCompletion` each make exactly 3 attempts, sleep
`RETRY_DELAY_MS * 1` before the second attempt and `RETRY_DELAY_MS * 2`
before the third, and propagate the last (third) attempt's error
unchanged — same error, not wrapped. -/
theorem retry_cap_linear_backoff_last_error_propagated
    (catt : Nat → Except String ApiResponse) (cerr : Nat → String)
    (satt : Nat → StreamAttempt) (serr : Nat → String) (key : String)
    (hc : ∀ i, catt i = .error (cerr i))
    (hs : ∀ i, (satt i).failure = some (serr i)) :
    (createChatCompletionRun (some key) catt).attemptsMade = 3
    ∧ (createChatCompletionRun (some key) catt).sleeps
        = [RETRY_DELAY_MS * 1, RETRY_DELAY_MS * 2]
    ∧ (createChatCompletionRun (some key) catt).outcome = .error (cerr 3)
    ∧ (streamChatCompletionRun (some key) satt).attemptsMade = 3
    ∧ (streamChatCompletionRun (some key) satt).sleeps
        = [RETRY_DELAY_MS * 1, RETRY_DELAY_MS * 2]
    ∧ (streamChatCompletionRun (some key) satt).outcome = .error (serr 3) := by
  refine ⟨?_, ?_, ?_, ?_, ?_, ?_⟩ <;>
    simp [createChatCompletionRun, createGo, createStep, hc 1, hc 2, hc 3,
      streamChatCompletionRun, streamGo, hs 1, hs 2, hs 3,
      MAX_RETRIES, RETRY_DELAY_MS]

/-- Witness for C5: concrete always-failing oracles for both entry
points. -/
theorem retry_cap_linear_backoff_last_error_propagated_witness :
    (createChatCompletionRun (some "k")
        (fun i => .error (if i = 3 then "last-create" else "earlier"))).attemptsMade = 3
    ∧ (createChatCompletionRun (some "k")
        (fun i => .error (if i = 3 then "last-create" else "earlier"))).sleeps
          = [1000, 2000]
    ∧ (createChatCompletionRun (some "k")
        (fun i => .error (if i = 3 then "last-create" else "earlier"))).outcome
          = .error "last-create"
    ∧ (streamChatCompletionRun (some "k")
        (fun i => { events := [], failure := some (if i = 3 then "last-stream" else "earlier") })).attemptsMade = 3
    ∧ (streamChatCompletionRun (some "k")
        (fun i => { events := [], failure := some (if i = 3 then "last-stream" else "earlier") })).sleeps
          = [1000, 2000]
    ∧ (streamChatCompletionRun (some "k")
        (fun i => { events := [], failure := some (if i = 3 then "last-stream" else "earlier") })).outcome
          = .error "last-stream" := by
  have h := retry_cap_linear_backoff_last_error_propagated
    (fun i => .error (if i = 3 then "last-create" else "earlier"))
    (fun i => if i = 3 then "last-create" else "earlier")
    (fun i => { events := [], failure := some (if i = 3 then "last-stream" else "earlier") })
    (fun i => if i = 3 then "last-stream" else "earlier")
    "k" (fun _ => rfl) (fun _ => rfl)
  simpa [RETRY_DELAY_MS] using h

/-- C9: when the first upstream attempt delivers its events and the stream
ends without error, `streamChatCompletion` yields exactly the texts of the
text-delta events, in arrival order and nothing else, within a single
attempt. -/
theorem streamComplete_yields_only_text_deltas
    (att : Nat → StreamAttempt) (evs : List UpstreamEvent) (key : String)
    (h : att 1 = { events := evs, failure := none }) :
    (streamChatCompletionRun (some key) att).yielded = textDeltaTexts evs
    ∧ (streamChatCompletionRun (some key) att).attemptsMade = 1
    ∧ (streamChatCompletionRun (some key) att).outcome = .ok () := by
  refine ⟨?_, ?_, ?_⟩ <;>
    simp [streamChatCompletionRun, streamGo, h, MAX_RETRIES,
      yieldsOf_eq_textDeltaTexts]

/-- Witness for C9: the mixed event sequence yields exactly A then B. -/
theorem streamComplete_yields_only_text_deltas_witness :
    (streamChatCompletionRun (some "k9")
        (fun _ => { events := mixedEvents, failure := none })).yielded = ["A", "B"]
    ∧ (streamChatCompletionRun (some "k9")
        (fun _ => { events := mixedEvents, failure := none })).attemptsMade = 1 := by
  have h := streamComplete_yields_only_text_deltas
    (fun _ => { events := mixedEvents, failure := none }) mixedEvents "k9" rfl
  exact ⟨h.1.trans (by decide), h.2.1⟩

theorem resolveSession_spec (st : InMemoryStorage) (now : Nat) (sid : String)
    (cfg : Option String) :
    (((resolveSession st now sid cfg).2).getMessages now sid).1
      = (resolveSession st now sid cfg).1.messages
    ∧ sessionLive (resolveSession st now sid cfg).2 now sid = true := by
  have hk : ¬ (now + sessionExpirySeconds cfg * 1000 < now) := by omega
  cases hm : mapGet st.sessions sid with
  | none =>
      constructor <;>
        simp [resolveSession, InMemoryStorage.getSession, hm, isSessionExpired,
          InMemoryStorage.createSession, getSessionExpiresAt,
          InMemoryStorage.getMessages, sessionLive, mapGet_mapSet_self, hk]
  | some s =>
      by_cases hexp : s.expiresAt < now
      · constructor <;>
          simp [resolveSession, InMemoryStorage.getSession, hm, hexp,
            isSessionExpired, InMemoryStorage.deleteSession,
            InMemoryStorage.createSession, getSessionExpiresAt,
            InMemoryStorage.getMessages, sessionLive, mapGet_mapSet_self, hk]
      · constructor <;>
          simp [resolveSession, InMemoryStorage.getSession, hm, hexp,
            isSessionExpired, InMemoryStorage.getMessages, sessionLive,
            mapGet_mapSet_self, Nat.not_lt.mp hexp]

/-- C7: per accepted chat request, exactly one user message (the trimmed
text with its attachments) is appended before streaming; when the stream
run ends without error exactly one assistant message equal to the
concatenation of all forwarded fragments is additionally appended and the
events end with the completion marker; when the run throws, no assistant
message is persisted — only the user message — and a single error event
replaces the marker. -/
theorem chat_request_message_frame
    (cfg : Option String) (body : RequestBody) (st : InMemoryStorage)
    (now : Nat) (gid : String) (frags : List String) (fail : Option String)
    (hv : validateRequest body = true)
    (hg : imagesGate body.images = none) :
    (((POST cfg body st now gid (frags, fail)).storage.getMessages now
        (resolvedSessionId body gid)).1).map storedProj
      = ((resolveSession st now (resolvedSessionId body gid) cfg).1.messages).map
          storedProj
        ++ [(Role.user, jsTrim (body.message.getD ""),
             body.images.map (List.map imageProj))]
        ++ (match fail with
            | none => [(Role.assistant, String.join frags,
                        (none : Option (List (String × String × Nat))))]
            | some _ => [])
    ∧ (POST cfg body st now gid (frags, fail)).resp
        = .streamResponse (resolvedSessionId body gid)
            (frags.map SSEEvent.content
              ++ [match fail with
                  | none => SSEEvent.done
                  | some e => SSEEvent.error e]) := by
  obtain ⟨hres, hlive⟩ :=
    resolveSession_spec st now (resolvedSessionId body gid) cfg
  obtain ⟨hu1, hu2, hu3⟩ := addMessage_step
    (resolveSession st now (resolvedSessionId body gid) cfg).2 now
    (resolvedSessionId body gid)
    { role := .user, content := jsTrim (body.message.getD ""),
      images := body.images } hlive
  cases fail with
  | some e =>
      constructor
      · simp only [POST, hv, hg, eq_self_iff_true, not_true, ite_false]
        simp only [hu2, hres]
        simp [storedProj_mkStoredMessage, chatProj, imageProj]
      · simp only [POST, hv, hg, eq_self_iff_true, not_true, ite_false]
  | none =>
      obtain ⟨hb1, hb2, hb3⟩ := addMessage_step
        (((resolveSession st now (resolvedSessionId body gid) cfg).2).addMessage
          now (resolvedSessionId body gid)
          { role := .user, content := jsTrim (body.message.getD ""),
            images := body.images }).2 now
        (resolvedSessionId body gid)
        { role := .assistant, content := String.join frags, images := none } hu3
      constructor
      · simp only [POST, hv, hg, eq_self_iff_true, not_true, ite_false]
        simp only [hb2, hu2, hres]
        simp [storedProj_mkStoredMessage, chatProj, imageProj]
      · simp only [POST, hv, hg, eq_self_iff_true, not_true, ite_false]

/-- Witness for C7: an accepted request over the empty store with a
two-fragment successful stream. -/
theorem chat_request_message_frame_witness :
    (((POST none { sessionId := some "sess", message := some " Hello ", images := none }
        InMemoryStorage.empty 0 "g" (["He", "llo"], none)).storage.getMessages 0
          "sess").1).map storedProj
      = [(Role.user, "Hello", none), (Role.assistant, "Hello", none)]
    ∧ (POST none { sessionId := some "sess", message := some " Hello ", images := none }
        InMemoryStorage.empty 0 "g" (["He", "llo"], none)).resp
        = .streamResponse "sess"
            [SSEEvent.content "He", SSEEvent.content "llo", SSEEvent.done] := by
  have h := chat_request_message_frame none
    { sessionId := some "sess", message := some " Hello ", images := none }
    InMemoryStorage.empty 0 "g" ["He", "llo"] none (by decide) rfl
  constructor
  · exact h.1.trans (by rfl)
  · exact h.2.trans (by rfl)

/-- C3 counterexample: a POST body with a non-empty trimmed message but no
`sessionId` field is rejected as a validation error (400), because
`validateRequest` requires `typeof sessionId === "string"`; no session id
is generated and no `X-Session-Id` header is returned. -/
theorem post_missing_sessionId_rejected :
    (POST none { sessionId := none, message := some "Hello", images := none }
        InMemoryStorage.empty 0 "generated" (["Hi"], none)).resp
      = .validationError "Invalid request body" := rfl

/-- C3 (amended): a request whose body omits `sessionId` is rejected with
the validation error; the `sessionId || generateSessionId()` fallback
fires only when the field is present but empty — then the request (with a
non-empty trimmed message) is accepted and the generated identifier is
returned in the `X-Session-Id` header of the streaming response. -/
theorem post_empty_sessionId_generates_id
    (cfg : Option String) (st : InMemoryStorage) (now : Nat) (gid : String)
    (frags : List String) (fail : Option String) (m : String)
    (imgs : Option (List ChatImage))
    (hm : ¬ jsTrim m = "") :
    (POST cfg { sessionId := none, message := some m, images := imgs }
        st now gid (frags, fail)).resp = .validationError "Invalid request body"
    ∧ (POST cfg { sessionId := some "", message := some m, images := none }
        st now gid (frags, fail)).resp
        = .streamResponse gid
            (frags.map SSEEvent.content
              ++ [match fail with
                  | none => SSEEvent.done
                  | some e => SSEEvent.error e]) := by
  constructor
  · simp [POST, validateRequest]
  · have hv : validateRequest
        { sessionId := some "", message := some m, images := none } = true := by
      simpa [validateRequest] using hm
    simp only [POST, hv, eq_self_iff_true, not_true, ite_false,
      imagesGate, resolvedSessionId]
    cases fail <;> simp

/-- Witness for the amended C3: message Hello with the empty-string
session id is accepted and answered with the generated id. -/
theorem post_empty_sessionId_generates_id_witness :
    (POST none { sessionId := none, message := some "Hello", images := none }
        InMemoryStorage.empty 0 "gen-1" ([], none)).resp
      = .validationError "Invalid request body"
    ∧ (POST none { sessionId := some "", message := some "Hello", images := none }
        InMemoryStorage.empty 0 "gen-1" ([], none)).resp
        = .streamResponse "gen-1" [SSEEvent.done] := by
  have h := post_empty_sessionId_generates_id none InMemoryStorage.empty 0 "gen-1"
    [] none "Hello" none (by decide)
  exact ⟨h.1, h.2.trans (by rfl)⟩

/-- C10: a request whose `images` field is the empty array is processed
with the same response as one with no `images` field — the
`images && images.length > 0` gate skips `validateImages` for a
zero-length list — even though `validateImages` itself classifies the
empty list as invalid (`isValidImageCount 0` is false), so an image
rejection from the chat endpoint implies a non-empty list. -/
theorem empty_images_list_skips_validation :
    (∀ (cfg : Option String) (sid : Option String) (msg : Option String)
        (st : InMemoryStorage) (now : Nat) (gid : String)
        (run : List String × Option String),
      (POST cfg { sessionId := sid, message := msg, images := some [] }
          st now gid run).resp
        = (POST cfg { sessionId := sid, message := msg, images := none }
            st now gid run).resp)
    ∧ imagesGate (some []) = none
    ∧ (validateImages []).valid = false
    ∧ (validateImages []).error = some ImageValidationError.tooManyImages
    ∧ (∀ imgs : List ChatImage,
        (imagesGate (some imgs)).isSome = true → 0 < imgs.length) := by
  refine ⟨?_, rfl, by decide, by decide, ?_⟩
  · intro cfg sid msg st now gid run
    by_cases hv : validateRequest
        { sessionId := sid, message := msg, images := some ([] : List ChatImage) } = true
    · have hv2 : validateRequest
          { sessionId := sid, message := msg, images := none } = true := hv
      cases hrun : run.2 <;>
        simp [POST, hv, hv2, imagesGate, resolvedSessionId, hrun]
    · have hv2 : ¬ validateRequest
          { sessionId := sid, message := msg, images := none } = true := hv
      simp [POST, hv, hv2]
  · intro imgs h
    by_contra hlen
    have h0 : imgs.length = 0 := by omega
    have : imgs = [] := List.length_eq_zero.mp h0
    subst this
    simp [imagesGate] at h

/-- Witness for C10: the empty image list and the absent field give the
same response, while the validator itself rejects the empty list, and a
rejecting gate implies a non-empty list. -/
theorem empty_images_list_skips_validation_witness :
    (POST none { sessionId := some "s", message := some "Hi", images := some [] }
        InMemoryStorage.empty 0 "g" (["x"], none)).resp
      = (POST none { sessionId := some "s", message := some "Hi", images := none }
          InMemoryStorage.empty 0 "g" (["x"], none)).resp
    ∧ (validateImages []).valid = false
    ∧ 0 < [ChatImage.mk "d" "text/plain" 10].length := by
  have h := empty_images_list_skips_validation
  exact ⟨h.1 none (some "s") (some "Hi") InMemoryStorage.empty 0 "g" (["x"], none),
    h.2.2.1,
    h.2.2.2.2 [ChatImage.mk "d" "text/plain" 10] (by decide)⟩

end AiChat
